import Mathlib

/-!
Verification of the mini-redis protocol/command layer.

Shallow embedding of the sources:
  * `src/frame.rs`   — the RESP frame codec (`Frame`, `Frame::check`, `Frame::parse`
    and the byte-cursor helpers `get_u8`, `peek_u8`, `skip`, `get_line`, `get_decimal`);
  * `src/cmd.rs`     — `Command::from_frame` and the `Command::apply` dispatcher;
  * `src/cmd/get.rs`, `src/cmd/unknown.rs`, `src/cmd/subscribe.rs`.

Bytes are modelled as `List Nat` (each element a byte value), the Rust
`Cursor<&[u8]>` as a pair of the underlying buffer and a read position, and
machine-integer parsing (`atoi::<u64>`) with an explicit `< 2 ^ 64` bound.
Fallible code returns an explicit outcome type; Rust panics (`unimplemented!`,
slice-index out of bounds, integer underflow on `len() - 1`) are modelled by a
distinguished `panic` outcome.

Repository modules that are referenced but whose sources are not available
(`parse.rs`, `db.rs`, `connnection.rs`, `set.rs`, `publish.rs`, `ping.rs`) are
modelled from the specification; each such definition carries a doc comment
starting with `Modelled from the spec:`.
-/

/-- The protocol value, from `src/frame.rs` (`enum Frame`). `Bulk` payloads are
raw bytes; `Int` is a `u64` (modelled as `Nat`, produced only by the decimal
reader which enforces the 64-bit bound). -/
inductive Frame where
  | Simple (s : String)
  | Error (s : String)
  | Int (n : Nat)
  | Bulk (b : List Nat)
  | Null
  | Array (xs : List Frame)
deriving Repr

/-- The codec error type, from `src/frame.rs` (`enum Error`): either "not enough
data is available" or an invalid-encoding message. -/
inductive FrameError where
  | inComplete
  | other (msg : String)
deriving Repr, DecidableEq

/-- Outcome of running a fallible codec operation: success, a `FrameError`, or a
Rust panic (out-of-bounds indexing, arithmetic underflow, `unimplemented!`). -/
inductive FOut (α : Type) where
  | ok (a : α)
  | err (e : FrameError)
  | panic
deriving Repr

/-- The Rust `std::io::Cursor<&[u8]>`: the underlying byte buffer plus the
current read position. -/
structure Cursor where
  data : List Nat
  pos : Nat
deriving Repr, DecidableEq

/-- `bytes::Buf::remaining` on a `Cursor<&[u8]>`: bytes left after the read
position (saturating at zero). -/
def Cursor.remaining (c : Cursor) : Nat := c.data.length - c.pos

/-- Indexing the underlying buffer (`src.get_ref()[i]`); total with a default,
guarded by explicit bounds checks (out-of-bounds indexing is a `panic` at each
use site that the source does not guard). -/
def Cursor.byteAt (c : Cursor) (i : Nat) : Nat := c.data.getD i 0

/-- `get_u8` from `src/frame.rs`: error `InComplete` if nothing remains,
otherwise consume and return one byte. -/
def get_u8 (c : Cursor) : FOut (Nat × Cursor) :=
  if c.pos < c.data.length then .ok (c.byteAt c.pos, { c with pos := c.pos + 1 })
  else .err .inComplete

/-- `peek_u8` from `src/frame.rs`: like `get_u8` but does not advance. -/
def peek_u8 (c : Cursor) : FOut Nat :=
  if c.pos < c.data.length then .ok (c.byteAt c.pos) else .err .inComplete

/-- `skip` from `src/frame.rs`: advance `n` bytes, `InComplete` when fewer
remain. -/
def skip (c : Cursor) (n : Nat) : FOut (Unit × Cursor) :=
  if c.remaining < n then .err .inComplete else .ok ((), { c with pos := c.pos + n })

/-- `get_line` from `src/frame.rs`, embedded exactly as written.  In the source
the `return Ok(&src.get_ref()[start..i])` statement sits inside the `for` loop
body but OUTSIDE the `if` that looks for CRLF, so the first iteration
(`i = start`) always returns, yielding the empty slice `start..start`; the
cursor is advanced (by `set_position(i + 2)`) only when the byte at `start` is
CR and the byte after it is LF.  Reading `src.get_ref()[i + 1]` is unguarded,
so a buffer whose last byte is CR panics; `src.get_ref().len() - 1` underflows
when the buffer is empty (also modelled as a panic). -/
def get_line (c : Cursor) : FOut (List Nat × Cursor) :=
  if c.data.length = 0 then .panic
  else if c.data.length ≤ c.pos then .err .inComplete
  else if c.byteAt c.pos = 13 then
    if c.data.length ≤ c.pos + 1 then .panic
    else if c.byteAt (c.pos + 1) = 10 then .ok ([], { c with pos := c.pos + 2 })
    else .ok ([], c)
  else .ok ([], c)

/-- Models the external `atoi::atoi::<u64>` crate function used by
`get_decimal`: `none` on an empty slice, on any non-digit byte, or on 64-bit
overflow; otherwise the decimal value. -/
def atoi_u64 (l : List Nat) : Option Nat :=
  if l.isEmpty then none
  else if l.all (fun b => 48 ≤ b && b ≤ 57) then
    let v := l.foldl (fun acc b => acc * 10 + (b - 48)) 0
    if v < 2 ^ 64 then some v else none
  else none

/-- `get_decimal` from `src/frame.rs`: read a line and parse it with `atoi`. -/
def get_decimal (c : Cursor) : FOut (Nat × Cursor) :=
  match get_line c with
  | .ok (line, c2) =>
    match atoi_u64 line with
    | some v => .ok (v, c2)
    | none => .err (.other "protocol error; invalid frame format")
  | .err e => .err e
  | .panic => .panic

/-- Decimal rendering of a byte value, used in `check`'s invalid-type-byte
message (`format!` of a `u8`). -/
def decimalBytesAux : Nat → Nat → List Nat
  | 0, _ => []
  | fuel+1, n => if n < 10 then [48 + n] else decimalBytesAux fuel (n / 10) ++ [48 + n % 10]

/-- ASCII decimal digits of a natural number. -/
def decimalBytes (n : Nat) : List Nat := decimalBytesAux (n + 1) n

/-- A natural number rendered as a decimal string. -/
def natString (n : Nat) : String := String.mk ((decimalBytes n).map Char.ofNat)

mutual

/-- `Frame::check` from `src/frame.rs`, with explicit fuel for the recursive
array branch (the fuel only decreases there; `Frame.check` below supplies more
fuel than the buffer could ever need, so the `fuel = 0` case is unreachable). -/
def checkAux : Nat → Cursor → FOut (Unit × Cursor)
  | 0, _ => .panic
  | fuel+1, c =>
    match get_u8 c with
    | .err e => .err e
    | .panic => .panic
    | .ok (b, c1) =>
      -- b'+': Simple string
      if b = 43 then
        match get_line c1 with
        | .ok (_, c2) => .ok ((), c2)
        | .err e => .err e
        | .panic => .panic
      -- b'-': Error string
      else if b = 45 then
        match get_line c1 with
        | .ok (_, c2) => .ok ((), c2)
        | .err e => .err e
        | .panic => .panic
      -- b':': Integer
      else if b = 58 then
        match get_decimal c1 with
        | .ok (_, c2) => .ok ((), c2)
        | .err e => .err e
        | .panic => .panic
      -- b'$': Bulk string
      else if b = 36 then
        match peek_u8 c1 with
        | .ok p =>
          if p = 45 then
            -- Skip '-1\r\n'
            skip c1 4
          else
            match get_decimal c1 with
            | .ok (len, c2) => skip c2 (len + 2)
            | .err e => .err e
            | .panic => .panic
        | .err e => .err e
        | .panic => .panic
      -- b'*': Array
      else if b = 42 then
        match get_decimal c1 with
        | .ok (len, c2) => checkMany fuel len c2
        | .err e => .err e
        | .panic => .panic
      else .err (.other ("protocol error; invalid frame type byte `" ++ natString b ++ "`"))

/-- The `for _ in 0..len { Frame::check(src)?; }` loop of the array branch. -/
def checkMany : Nat → Nat → Cursor → FOut (Unit × Cursor)
  | _, 0, c => .ok ((), c)
  | 0, _+1, _ => .panic
  | fuel+1, n+1, c =>
    match checkAux fuel c with
    | .ok (_, c2) => checkMany fuel n c2
    | .err e => .err e
    | .panic => .panic

end

/-- `Frame::check`: run `checkAux` with ample fuel. -/
def Frame.check (c : Cursor) : FOut (Unit × Cursor) := checkAux (c.data.length + 1) c

/-- UTF-8 decoding of a byte list to characters (`String::from_utf8`, external
std function): standard 1–4 byte sequences, rejecting overlong encodings,
surrogates and out-of-range code points. -/
def utf8DecodeChars : List Nat → Option (List Char)
  | [] => some []
  | b :: rest =>
    if b < 128 then
      match utf8DecodeChars rest with
      | some cs => some (Char.ofNat b :: cs)
      | none => none
    else if b < 194 then none
    else if b < 224 then
      match rest with
      | b1 :: rest2 =>
        if 128 ≤ b1 && b1 < 192 then
          match utf8DecodeChars rest2 with
          | some cs => some (Char.ofNat ((b - 192) * 64 + (b1 - 128)) :: cs)
          | none => none
        else none
      | [] => none
    else if b < 240 then
      match rest with
      | b1 :: b2 :: rest3 =>
        if (128 ≤ b1 && b1 < 192) && (128 ≤ b2 && b2 < 192) then
          let code := (b - 224) * 4096 + (b1 - 128) * 64 + (b2 - 128)
          if 2048 ≤ code && (code < 55296 || 57343 < code) then
            match utf8DecodeChars rest3 with
            | some cs => some (Char.ofNat code :: cs)
            | none => none
          else none
        else none
      | _ => none
    else if b < 245 then
      match rest with
      | b1 :: b2 :: b3 :: rest4 =>
        if (128 ≤ b1 && b1 < 192) && ((128 ≤ b2 && b2 < 192) && (128 ≤ b3 && b3 < 192)) then
          let code := (b - 240) * 262144 + (b1 - 128) * 4096 + (b2 - 128) * 64 + (b3 - 128)
          if 65536 ≤ code && code < 1114112 then
            match utf8DecodeChars rest4 with
            | some cs => some (Char.ofNat code :: cs)
            | none => none
          else none
        else none
      | _ => none
    else none

/-- `String::from_utf8` (external std): decode bytes to a string, or fail. -/
def string_from_utf8 (l : List Nat) : Option String :=
  match utf8DecodeChars l with
  | some cs => some (String.mk cs)
  | none => none

mutual

/-- `Frame::parse` from `src/frame.rs`, with explicit fuel for the recursive
array branch, exactly mirroring the source branch structure.  The catch-all
`unimplemented!()` arm is the `panic` outcome. -/
def parseAux : Nat → Cursor → FOut (Frame × Cursor)
  | 0, _ => .panic
  | fuel+1, c =>
    match get_u8 c with
    | .err e => .err e
    | .panic => .panic
    | .ok (b, c1) =>
      if b = 43 then
        match get_line c1 with
        | .ok (line, c2) =>
          match string_from_utf8 line with
          | some s => .ok (.Simple s, c2)
          | none => .err (.other "protocol error; invalid frame formt")
        | .err e => .err e
        | .panic => .panic
      else if b = 45 then
        match get_line c1 with
        | .ok (line, c2) =>
          match string_from_utf8 line with
          | some s => .ok (.Error s, c2)
          | none => .err (.other "protocol error; invalid frame formt")
        | .err e => .err e
        | .panic => .panic
      else if b = 58 then
        match get_decimal c1 with
        | .ok (v, c2) => .ok (.Int v, c2)
        | .err e => .err e
        | .panic => .panic
      else if b = 36 then
        match peek_u8 c1 with
        | .ok p =>
          if p = 45 then
            match get_line c1 with
            | .ok (line, c2) =>
              -- `if line != b"-1" { return Err(...) }`
              if line = [45, 49] then .ok (.Null, c2)
              else .err (.other "protocol error; invalid frame format")
            | .err e => .err e
            | .panic => .panic
          else
            match get_decimal c1 with
            | .ok (len, c2) =>
              if c2.remaining < len + 2 then .err .inComplete
              else
                -- `Bytes::copy_from_slice(&src.chunk()[..len])`
                let data := (c2.data.drop c2.pos).take len
                match skip c2 (len + 2) with
                | .ok (_, c3) => .ok (.Bulk data, c3)
                | .err e => .err e
                | .panic => .panic
            | .err e => .err e
            | .panic => .panic
        | .err e => .err e
        | .panic => .panic
      else if b = 42 then
        match get_decimal c1 with
        | .ok (len, c2) => parseMany fuel len c2 []
        | .err e => .err e
        | .panic => .panic
      else .panic

/-- The `for _ in 0..len { out.push(Frame::parse(src)?); }` loop of the array
branch, accumulating the parsed elements in order. -/
def parseMany : Nat → Nat → Cursor → List Frame → FOut (Frame × Cursor)
  | _, 0, c, acc => .ok (.Array acc, c)
  | 0, _+1, _, _ => .panic
  | fuel+1, n+1, c, acc =>
    match parseAux fuel c with
    | .ok (f, c2) => parseMany fuel n c2 (acc ++ [f])
    | .err e => .err e
    | .panic => .panic

end

/-- `Frame::parse`: run `parseAux` with ample fuel. -/
def Frame.parse (c : Cursor) : FOut (Frame × Cursor) := parseAux (c.data.length + 1) c

/-- UTF-8 encoding of one character (external std; used to model putting a Rust
`String`'s bytes on the wire). -/
def utf8EncodeChar (c : Char) : List Nat :=
  let n := c.toNat
  if n < 128 then [n]
  else if n < 2048 then [192 + n / 64, 128 + n % 64]
  else if n < 65536 then [224 + n / 4096, 128 + (n / 64) % 64, 128 + n % 64]
  else [240 + n / 262144, 128 + (n / 4096) % 64, 128 + (n / 64) % 64, 128 + n % 64]

/-- The UTF-8 bytes of a string. -/
def strBytes (s : String) : List Nat := s.data.flatMap utf8EncodeChar

mutual

/-- Modelled from the spec: the frame encoder (`Connection::write_frame` /
`write_value` live in `connnection.rs`, which is not among the sources).
Follows the wire table of spec §4.1: one leading type byte, CRLF-terminated
text/decimal payloads, `$-1\r\n` for `Null`, and arrays written as a decimal
count followed by each element recursively. -/
def encodeFrame : Frame → List Nat
  | .Simple s => 43 :: (strBytes s ++ [13, 10])
  | .Error s => 45 :: (strBytes s ++ [13, 10])
  | .Int n => 58 :: (decimalBytes n ++ [13, 10])
  | .Bulk b => 36 :: (decimalBytes b.length ++ [13, 10] ++ b ++ [13, 10])
  | .Null => [36, 45, 49, 13, 10]
  | .Array xs => 42 :: (decimalBytes xs.length ++ [13, 10] ++ encodeFrameList xs)

/-- Concatenated encodings of a list of frames (the array payload). -/
def encodeFrameList : List Frame → List Nat
  | [] => []
  | f :: r => encodeFrame f ++ encodeFrameList r

end

/-- ASCII lowercasing of one character (models Rust `str::to_lowercase` on the
ASCII fragment, the only fragment the command names exercise). -/
def asciiLowerChar (c : Char) : Char :=
  if c.toNat ≥ 65 && c.toNat ≤ 90 then Char.ofNat (c.toNat + 32) else c

/-- ASCII lowercasing of a string (`to_lowercase`). -/
def asciiLower (s : String) : String := String.mk (s.data.map asciiLowerChar)

/-- The error type of the frame-field reader, from `parse.rs` (not among the
sources): reaching the end of the array, or a message. -/
inductive ParseError where
  | endOfStream
  | other (msg : String)
deriving Repr, DecidableEq

/-- Rendering of a `ParseError` when it is bubbled up into the boxed
`crate::Error` by `Command::from_frame`. -/
def ParseError.message : ParseError → String
  | .endOfStream => "protocol error; unexpected end of stream"
  | .other msg => msg

/-- Modelled from the spec: the `Parse` cursor over a command frame's elements
(`parse.rs` is not among the sources).  Spec §4.2: a command frame must be an
`Array`; its elements are then consumed positionally. -/
structure Parse where
  parts : List Frame
deriving Repr

/-- Modelled from the spec: `Parse::new` — requires the frame to be the array
variant. -/
def Parse.new (f : Frame) : Except String Parse :=
  match f with
  | .Array xs => .ok ⟨xs⟩
  | _ => .error "protocol error; expected array frame"

/-- Modelled from the spec: reading one element as text — a `Simple` frame's
text, or a `Bulk` frame's bytes decoded as UTF-8; any other variant is a
protocol error. -/
def frameToString (f : Frame) : Except ParseError String :=
  match f with
  | .Simple s => .ok s
  | .Bulk b =>
    match string_from_utf8 b with
    | some s => .ok s
    | none => .error (.other "protocol error; invalid string")
  | _ => .error (.other "protocol error; expected simple frame or bulk frame")

/-- Modelled from the spec: reading one element as raw bytes — a `Simple`
frame's UTF-8 bytes or a `Bulk` payload. -/
def frameToBytes (f : Frame) : Except ParseError (List Nat) :=
  match f with
  | .Simple s => .ok (strBytes s)
  | .Bulk b => .ok b
  | _ => .error (.other "protocol error; expected simple frame or bulk frame")

/-- Modelled from the spec: reading one element as an unsigned integer — an
`Int` frame directly, or decimal text in a `Simple`/`Bulk` frame. -/
def frameToInt (f : Frame) : Except ParseError Nat :=
  match f with
  | .Int n => .ok n
  | .Simple s =>
    match atoi_u64 (strBytes s) with
    | some n => .ok n
    | none => .error (.other "protocol error; invalid number")
  | .Bulk b =>
    match atoi_u64 b with
    | some n => .ok n
    | none => .error (.other "protocol error; invalid number")
  | _ => .error (.other "protocol error; expected int frame")

/-- Modelled from the spec: `Parse::next_string` — the next element as text,
`EndOfStream` when the elements are exhausted. -/
def Parse.next_string (p : Parse) : Except ParseError (String × Parse) :=
  match p.parts with
  | [] => .error .endOfStream
  | f :: rest =>
    match frameToString f with
    | .ok s => .ok (s, ⟨rest⟩)
    | .error e => .error e

/-- Modelled from the spec: `Parse::next_bytes`. -/
def Parse.next_bytes (p : Parse) : Except ParseError (List Nat × Parse) :=
  match p.parts with
  | [] => .error .endOfStream
  | f :: rest =>
    match frameToBytes f with
    | .ok b => .ok (b, ⟨rest⟩)
    | .error e => .error e

/-- Modelled from the spec: `Parse::next_int`. -/
def Parse.next_int (p : Parse) : Except ParseError (Nat × Parse) :=
  match p.parts with
  | [] => .error .endOfStream
  | f :: rest =>
    match frameToInt f with
    | .ok n => .ok (n, ⟨rest⟩)
    | .error e => .error e

/-- Modelled from the spec: `Parse::finish` — succeeds only when every element
of the array has been consumed ("the parser must still be fully consumed, or
fail"). -/
def Parse.finish (p : Parse) : Except ParseError Unit :=
  match p.parts with
  | [] => .ok ()
  | _ => .error (.other "protocol error; expected end of frame, but there was more")

/-- The command representation, from `src/cmd.rs` (`enum Command`), with each
variant's struct fields inlined.  A `Set` expiration is carried in
milliseconds. -/
inductive Command where
  | Get (key : String)
  | Publish (channel : String) (message : List Nat)
  | Set (key : String) (value : List Nat) (expireMs : Option Nat)
  | Subscribe (channels : List String)
  | Unsubscribe (channels : List String)
  | Ping (msg : Option (List Nat))
  | Unknown (cmd_name : String)
deriving Repr

/-- `Get::parse_frames` from `src/cmd/get.rs`: exactly one key. -/
def Get.parse_frames (p : Parse) : Except ParseError (String × Parse) :=
  p.next_string

/-- Modelled from the spec: `Publish::parse_frames` (`publish.rs` is not among
the sources).  Spec §4.2: PUBLISH consumes positionally a channel and a
message. -/
def Publish.parse_frames (p : Parse) : Except ParseError ((String × List Nat) × Parse) :=
  match p.next_string with
  | .error e => .error e
  | .ok (channel, p1) =>
    match p1.next_bytes with
    | .error e => .error e
    | .ok (message, p2) => .ok ((channel, message), p2)

/-- Modelled from the spec: `Set::parse_frames` (`set.rs` is not among the
sources).  Spec §4.2/§6: `SET key value [EX seconds | PX milliseconds]` — key
and value, then an optional expiry clause; an unrecognized trailing word is a
parse failure. -/
def Set.parse_frames (p : Parse) :
    Except ParseError ((String × List Nat × Option Nat) × Parse) :=
  match p.next_string with
  | .error e => .error e
  | .ok (key, p1) =>
    match p1.next_bytes with
    | .error e => .error e
    | .ok (value, p2) =>
      match p2.next_string with
      | .error .endOfStream => .ok ((key, value, none), p2)
      | .error e => .error e
      | .ok (word, p3) =>
        if asciiLower word = "ex" then
          match p3.next_int with
          | .error e => .error e
          | .ok (secs, p4) => .ok ((key, value, some (secs * 1000)), p4)
        else if asciiLower word = "px" then
          match p3.next_int with
          | .error e => .error e
          | .ok (ms, p4) => .ok ((key, value, some ms), p4)
        else .error (.other "currently `SET` only supports the expiration option")

/-- Modelled from the spec: `Ping::parse_frames` (`ping.rs` is not among the
sources).  Spec §4.2: zero or one optional message. -/
def Ping.parse_frames (p : Parse) : Except ParseError (Option (List Nat) × Parse) :=
  match p.next_bytes with
  | .ok (msg, p1) => .ok (some msg, p1)
  | .error .endOfStream => .ok (none, p)
  | .error e => .error e

/-- The `loop { match parse.next_string() ... }` of
`Subscribe::parse_frames` in `src/cmd/subscribe.rs`: push every further
element, stop at `EndOfStream`, propagate any other error. -/
def subscribeLoop : List Frame → List String → Except ParseError (List String)
  | [], acc => .ok acc
  | f :: rest, acc =>
    match frameToString f with
    | .ok s => subscribeLoop rest (acc ++ [s])
    | .error e => .error e

/-- `Subscribe::parse_frames` from `src/cmd/subscribe.rs`: one mandatory
channel, then every remaining element as a further channel name. -/
def Subscribe.parse_frames (p : Parse) : Except ParseError (List String × Parse) :=
  match p.next_string with
  | .error e => .error e
  | .ok (first, p1) =>
    match subscribeLoop p1.parts [first] with
    | .ok channels => .ok (channels, ⟨[]⟩)
    | .error e => .error e

/-- Modelled from the spec: `Unsubscribe::parse_frames` — a possibly-empty
channel list (spec §3: "Unsubscribe{channels: possibly-empty ordered
sequence}"). -/
def Unsubscribe.parse_frames (p : Parse) : Except ParseError (List String × Parse) :=
  match subscribeLoop p.parts [] with
  | .ok channels => .ok (channels, ⟨[]⟩)
  | .error e => .error e

/-- `Command::from_frame` from `src/cmd.rs`: build the `Parse` cursor, read and
lower-case the command name, dispatch on it, and run `parse.finish()` — except
in the catch-all arm, which RETURNS `Ok(Command::Unknown(...))` early, skipping
the `finish` check entirely. -/
def Command.from_frame (f : Frame) : Except String Command :=
  match Parse.new f with
  | .error e => .error e
  | .ok p =>
    match p.next_string with
    | .error e => .error e.message
    | .ok (s, p1) =>
      let command_name := asciiLower s
      if command_name = "get" then
        match Get.parse_frames p1 with
        | .error e => .error e.message
        | .ok (key, p2) =>
          match p2.finish with
          | .ok _ => .ok (.Get key)
          | .error e => .error e.message
      else if command_name = "publish" then
        match Publish.parse_frames p1 with
        | .error e => .error e.message
        | .ok ((ch, msg), p2) =>
          match p2.finish with
          | .ok _ => .ok (.Publish ch msg)
          | .error e => .error e.message
      else if command_name = "set" then
        match Set.parse_frames p1 with
        | .error e => .error e.message
        | .ok ((k, v, ttl), p2) =>
          match p2.finish with
          | .ok _ => .ok (.Set k v ttl)
          | .error e => .error e.message
      else if command_name = "subscribe" then
        match Subscribe.parse_frames p1 with
        | .error e => .error e.message
        | .ok (chs, p2) =>
          match p2.finish with
          | .ok _ => .ok (.Subscribe chs)
          | .error e => .error e.message
      else if command_name = "unsubscribe" then
        match Unsubscribe.parse_frames p1 with
        | .error e => .error e.message
        | .ok (chs, p2) =>
          match p2.finish with
          | .ok _ => .ok (.Unsubscribe chs)
          | .error e => .error e.message
      else if command_name = "ping" then
        match Ping.parse_frames p1 with
        | .error e => .error e.message
        | .ok (msg, p2) =>
          match p2.finish with
          | .ok _ => .ok (.Ping msg)
          | .error e => .error e.message
      else
        -- `return Ok(Command::Unknown(Unknown::new(command_name)));`
        .ok (.Unknown command_name)

/-- Association-list lookup (the key/value view of the external store). -/
def lookupA {α : Type} : List (String × α) → String → Option α
  | [], _ => none
  | (k, v) :: rest, key => if k = key then some v else lookupA rest key

/-- Association-list update. -/
def insertA {α : Type} : List (String × α) → String → α → List (String × α)
  | [], key, v => [(key, v)]
  | (k, v0) :: rest, key, v =>
    if k = key then (key, v) :: rest else (k, v0) :: insertA rest key v

/-- Modelled from the spec: a broadcast-receiver handle obtained from
`db.subscribe(channel)` (spec §6: "subscribe(channel) -> message receiver
handle"); identified by the channel it listens on. -/
structure Receiver where
  channel : String
deriving Repr, DecidableEq

/-- Modelled from the spec: the external Database collaborator (`db.rs` is not
among the sources).  Spec §6 contract: `get(key) -> optional value`,
`set(key, value, optional ttl)`, `subscribe(channel) -> receiver`,
`publish(channel, message) -> current subscriber count`.  Expiration is
enforced by the external janitor and is not modelled; the per-channel
subscriber count is carried as data. -/
structure Db where
  kv : List (String × List Nat)
  subCount : List (String × Nat)
deriving Repr

/-- Modelled from the spec: `db.get(key)`. -/
def Db.get (db : Db) (key : String) : Option (List Nat) := lookupA db.kv key

/-- Modelled from the spec: `db.set(key, value, ttl)`. -/
def Db.set (db : Db) (key : String) (value : List Nat) (_ttlMs : Option Nat) : Db :=
  { db with kv := insertA db.kv key value }

/-- Modelled from the spec: `db.subscribe(channel)` hands out a receiver for
that channel (creating the channel when absent). -/
def Db.subscribe (_db : Db) (channel : String) : Receiver := ⟨channel⟩

/-- Modelled from the spec: `db.publish(channel, message)` returns the current
subscriber count snapshot. -/
def Db.publish (db : Db) (channel : String) (_message : List Nat) : Nat :=
  (lookupA db.subCount channel).getD 0

/-- One result of `broadcast::Receiver::recv().await` as seen by the
subscription stream: a message, a `RecvError::Lagged(n)`, or any other error
(the channel closed). -/
inductive RecvEvent where
  | msg (m : List Nat)
  | lagged (n : Nat)
  | closed
deriving Repr, DecidableEq

/-- The `async_stream::stream!` loop inside `subscribe_to_channel`
(`src/cmd/subscribe.rs`), run over a trace of receive results: `Ok(msg)` is
yielded, `Err(Lagged(_))` yields nothing and the loop continues, any other
error breaks the loop.  Returns the yielded messages and whether the stream
terminated (`true` exactly when a non-lag error was hit within the trace). -/
def messagesStream : List RecvEvent → List (List Nat) × Bool
  | [] => ([], false)
  | .msg m :: rest =>
    let (ys, t) := messagesStream rest
    (m :: ys, t)
  | .lagged _ :: rest => messagesStream rest
  | .closed :: _ => ([], true)

/-- `tokio_stream::StreamMap::insert` (external collaborator): replace the
entry when the key is present, otherwise append it. -/
def streamMapInsert {α : Type} (key : String) (v : α) : List (String × α) → List (String × α)
  | [] => [(key, v)]
  | (k, v0) :: rest =>
    if k = key then (key, v) :: rest else (k, v0) :: streamMapInsert key v rest

/-- `make_subscibe_frame` from `src/cmd/subscribe.rs` (source spelling kept):
`Frame::array()` with `"subscribe"`, the channel name and the subscription
count pushed, i.e. `Array [Bulk "subscribe", Bulk channel, Int count]`. -/
def make_subscibe_frame (chan_name : String) (num_subs : Nat) : Frame :=
  .Array [.Bulk (strBytes "subscribe"), .Bulk (strBytes chan_name), .Int num_subs]

/-- `make_unsubscribe_frame` from `src/cmd/subscribe.rs`. -/
def make_unsubscribe_frame (chan_name : String) (num_subs : Nat) : Frame :=
  .Array [.Bulk (strBytes "unsubscribe"), .Bulk (strBytes chan_name), .Int num_subs]

/-- `make_message_frame` from `src/cmd/subscribe.rs`. -/
def make_message_frame (chan_name : String) (msg : List Nat) : Frame :=
  .Array [.Bulk (strBytes "message"), .Bulk (strBytes chan_name), .Bulk msg]

/-- `subscribe_to_channel` from `src/cmd/subscribe.rs`: obtain a receiver from
the database, insert the (lag-tolerant) message stream into the connection's
`StreamMap` under the channel name, then write one acknowledgment frame built
from the channel name and `subscription.len()` AFTER the insertion.  The
connection is modelled as the list of frames written so far; `write_frame` is
an append. -/
def subscribe_to_channel (chan_name : String) (subscription : List (String × Receiver))
    (db : Db) (dst : List Frame) : List (String × Receiver) × List Frame :=
  let rx := db.subscribe chan_name
  let subscription2 := streamMapInsert chan_name rx subscription
  let resp := make_subscibe_frame chan_name subscription2.length
  (subscription2, dst ++ [resp])

/-- `Get::apply` from `src/cmd/get.rs`: look the key up, reply `Bulk value`
when present and `Null` otherwise, writing exactly that one frame. -/
def Get.apply (key : String) (db : Db) (dst : List Frame) :
    Except String Unit × Db × List Frame :=
  let resp :=
    match db.get key with
    | some value => Frame.Bulk value
    | none => Frame.Null
  (.ok (), db, dst ++ [resp])

/-- `Unknown::apply` from `src/cmd/unknown.rs`: write one
`Error("err unknown command '<name>'")` frame and return `Ok(())`. -/
def Unknown.apply (cmd_name : String) (dst : List Frame) :
    Except String Unit × List Frame :=
  (.ok (), dst ++ [.Error ("err unknown command '" ++ cmd_name ++ "'")])

/-- Modelled from the spec: `Set::apply` (`set.rs` is not among the sources) —
install the value with its optional TTL, reply `Simple "OK"`. -/
def Set.apply (key : String) (value : List Nat) (ttlMs : Option Nat) (db : Db)
    (dst : List Frame) : Except String Unit × Db × List Frame :=
  (.ok (), db.set key value ttlMs, dst ++ [.Simple "OK"])

/-- Modelled from the spec: `Publish::apply` (`publish.rs` is not among the
sources) — reply the integer subscriber-count snapshot. -/
def Publish.apply (channel : String) (message : List Nat) (db : Db)
    (dst : List Frame) : Except String Unit × Db × List Frame :=
  (.ok (), db, dst ++ [.Int (db.publish channel message)])

/-- Modelled from the spec: `Ping::apply` (`ping.rs` is not among the sources)
— `Simple "PONG"` without a message, the message as a bulk frame otherwise. -/
def Ping.apply (msg : Option (List Nat)) (dst : List Frame) :
    Except String Unit × List Frame :=
  match msg with
  | none => (.ok (), dst ++ [.Simple "PONG"])
  | some m => (.ok (), dst ++ [.Bulk m])

/-- Modelled from the spec: the entry of `Subscribe::apply` (its body is not
among the sources) — one `subscribe_to_channel` acknowledgment per requested
channel, after which control stays in the §4.3 select loop (the concurrent
loop itself is outside this model). -/
def Subscribe.apply (channels : List String) (db : Db) (dst : List Frame) :
    Except String Unit × Db × List Frame :=
  let out := channels.foldl
    (fun (acc : List (String × Receiver) × List Frame) ch =>
      subscribe_to_channel ch acc.1 db acc.2)
    ([], dst)
  (.ok (), db, out.2)

/-- `Command::apply` from `src/cmd.rs`: delegate to the command implementation;
the `Unsubscribe` arm is `Err("`Unsubscribe` is unsupported in this context")`
without performing any effect ("It may only be received from the context of a
`Subscribe` command").  The shutdown handle parameter is only threaded through
to the subscribe loop and carries no state here. -/
def Command.apply (cmd : Command) (db : Db) (dst : List Frame) :
    Except String Unit × Db × List Frame :=
  match cmd with
  | .Get key => Get.apply key db dst
  | .Publish ch msg => Publish.apply ch msg db dst
  | .Set k v ttl => Set.apply k v ttl db dst
  | .Subscribe chs => Subscribe.apply chs db dst
  | .Ping msg =>
    let (r, dst2) := Ping.apply msg dst
    (r, db, dst2)
  | .Unknown name =>
    let (r, dst2) := Unknown.apply name dst
    (r, db, dst2)
  | .Unsubscribe _ =>
    (.error "`Unsubscribe` is unsupported in this context", db, dst)

/-! Helper lemmas about the byte-cursor primitives (shared). -/

/-- Whenever `get_line` succeeds, the returned line is the empty slice: the
source's early `return` fires on the first loop iteration with `i = start`,
producing `start..start`. -/
theorem get_line_ok_empty {c : Cursor} {l : List Nat} {c2 : Cursor}
    (h : get_line c = .ok (l, c2)) : l = [] := by
  unfold get_line at h
  split_ifs at h <;> simp_all

/-- `get_decimal` can never succeed: the line it reads is always empty and
`atoi` rejects an empty slice. -/
theorem get_decimal_not_ok {c : Cursor} {v : Nat} {c2 : Cursor} :
    get_decimal c ≠ .ok (v, c2) := by
  intro h
  unfold get_decimal at h
  cases hl : get_line c with
  | ok lc =>
    obtain ⟨line, c3⟩ := lc
    rw [hl] at h
    have hle : line = [] := get_line_ok_empty hl
    subst hle
    simp [atoi_u64] at h
  | err e => rw [hl] at h; simp at h
  | panic => rw [hl] at h; simp at h

/-- A successful peek means the position is in bounds and returns the byte
there. -/
theorem peek_u8_ok_facts {c : Cursor} {p : Nat} (h : peek_u8 c = .ok p) :
    c.pos < c.data.length ∧ c.byteAt c.pos = p := by
  unfold peek_u8 at h
  by_cases hlt : c.pos < c.data.length
  · rw [if_pos hlt] at h
    injection h with h2
    exact ⟨hlt, h2⟩
  · rw [if_neg hlt] at h
    simp at h

/-- When the position is in bounds and the current byte is not CR, `get_line`
returns the empty line without advancing (and without panicking). -/
theorem get_line_not_cr {c : Cursor} (h1 : c.pos < c.data.length)
    (h2 : c.byteAt c.pos ≠ 13) : get_line c = .ok ([], c) := by
  unfold get_line
  rw [if_neg (by omega), if_neg (by omega), if_neg h2]

/-- C3 (amended): for every buffer on which `Frame::check` returns `Ok` from a
given cursor position, `Frame::parse` invoked from that same position never
panics — in particular the `unimplemented!()` invalid-type-byte branch is
unreachable, as is every out-of-bounds access inside `get_line`.  (`parse` may
still return a protocol error rather than a frame, which is why the claim as
originally stated is refuted by `check_complete_but_parse_errors_null`.) -/
theorem check_ok_parse_no_panic (c : Cursor) (r : Unit × Cursor)
    (h : Frame.check c = .ok r) : Frame.parse c ≠ .panic := by
  intro hp
  unfold Frame.check at h
  unfold Frame.parse at hp
  cases hg : get_u8 c with
  | err e => simp [checkAux, hg] at h
  | panic => simp [checkAux, hg] at h
  | ok bc =>
    obtain ⟨b, c1⟩ := bc
    simp only [checkAux, hg] at h
    simp only [parseAux, hg] at hp
    by_cases hb1 : b = 43
    · rw [if_pos hb1] at h hp
      cases hl : get_line c1 with
      | ok lc =>
        obtain ⟨line, c2⟩ := lc
        simp only [hl] at hp
        have hle := get_line_ok_empty hl
        subst hle
        simp [string_from_utf8, show utf8DecodeChars [] = some ([] : List Char) from rfl] at hp
      | err e => rw [hl] at h; simp at h
      | panic => rw [hl] at h; simp at h
    · by_cases hb2 : b = 45
      · rw [if_neg hb1, if_pos hb2] at h hp
        cases hl : get_line c1 with
        | ok lc =>
          obtain ⟨line, c2⟩ := lc
          simp only [hl] at hp
          have hle := get_line_ok_empty hl
          subst hle
          simp [string_from_utf8, show utf8DecodeChars [] = some ([] : List Char) from rfl] at hp
        | err e => rw [hl] at h; simp at h
        | panic => rw [hl] at h; simp at h
      · by_cases hb3 : b = 58
        · rw [if_neg hb1, if_neg hb2, if_pos hb3] at h
          cases hd : get_decimal c1 with
          | ok vc => obtain ⟨v, c2⟩ := vc; exact get_decimal_not_ok hd
          | err e => rw [hd] at h; simp at h
          | panic => rw [hd] at h; simp at h
        · by_cases hb4 : b = 36
          · rw [if_neg hb1, if_neg hb2, if_neg hb3, if_pos hb4] at h hp
            cases hk : peek_u8 c1 with
            | ok p =>
              simp only [hk] at h hp
              by_cases hq : p = 45
              · rw [if_pos hq] at hp
                obtain ⟨hlt, hbyte⟩ := peek_u8_ok_facts hk
                have hgl : get_line c1 = .ok ([], c1) :=
                  get_line_not_cr hlt (by rw [hbyte, hq]; omega)
                rw [hgl] at hp
                simp at hp
              · rw [if_neg hq] at h
                cases hd : get_decimal c1 with
                | ok vc => obtain ⟨v, c2⟩ := vc; exact get_decimal_not_ok hd
                | err e => rw [hd] at h; simp at h
                | panic => rw [hd] at h; simp at h
            | err e => rw [hk] at h; simp at h
            | panic => rw [hk] at h; simp at h
          · by_cases hb5 : b = 42
            · rw [if_neg hb1, if_neg hb2, if_neg hb3, if_neg hb4, if_pos hb5] at h
              cases hd : get_decimal c1 with
              | ok vc => obtain ⟨v, c2⟩ := vc; exact get_decimal_not_ok hd
              | err e => rw [hd] at h; simp at h
              | panic => rw [hd] at h; simp at h
            · rw [if_neg hb1, if_neg hb2, if_neg hb3, if_neg hb4, if_neg hb5] at h
              simp at h

/-- Witness for `check_ok_parse_no_panic`: the buffer `"+a\r\n"` satisfies the
hypothesis (`check` returns `Ok`, leaving the cursor at offset 1), and the
theorem applies. -/
theorem check_ok_parse_no_panic_witness :
    Frame.check ⟨[43, 97, 13, 10], 0⟩ = .ok ((), ⟨[43, 97, 13, 10], 1⟩)
    ∧ Frame.parse ⟨[43, 97, 13, 10], 0⟩ ≠ .panic :=
  ⟨rfl, check_ok_parse_no_panic ⟨[43, 97, 13, 10], 0⟩ ((), ⟨[43, 97, 13, 10], 1⟩) rfl⟩

/-- C1: the encode/parse round trip FAILS.  Evaluating the code at the failing
input `Frame::Simple("hi")`: its encoding is the valid wire form `"+hi\r\n"`,
but `Frame::parse` returns `Ok(Simple(""))` with the cursor left at offset 1 —
`get_line` returns the empty slice without ever scanning for CRLF — so the
parsed frame is not the original one. -/
theorem roundtrip_simple_hi_broken :
    encodeFrame (.Simple "hi") = [43, 104, 105, 13, 10]
    ∧ Frame.parse ⟨encodeFrame (.Simple "hi"), 0⟩
        = .ok (.Simple "", ⟨[43, 104, 105, 13, 10], 1⟩)
    ∧ Frame.Simple "" ≠ Frame.Simple "hi" := by
  refine ⟨rfl, rfl, ?_⟩
  intro hcontra
  injection hcontra with hs
  exact absurd hs (by decide)

/-- C2: partial-read safety FAILS.  For the valid encoded frame `"+hi\r\n"`
(the encoding of `Simple("hi")`): feeding `check` the strict two-byte prefix
`"+h"` yields `Ok` (Complete) instead of `Incomplete`; feeding the full bytes
yields `Ok` but with the cursor at offset 1 instead of the frame end 5; and on
the valid frame `"+\r\n"` (the encoding of `Simple("")`) the strict two-byte
prefix `"+\r"` makes `check` panic (out-of-bounds read of the byte after the
CR in `get_line`). -/
theorem check_partial_read_safety_broken :
    Frame.check ⟨(encodeFrame (.Simple "hi")).take 2, 0⟩ = .ok ((), ⟨[43, 104], 1⟩)
    ∧ Frame.check ⟨encodeFrame (.Simple "hi"), 0⟩ = .ok ((), ⟨[43, 104, 105, 13, 10], 1⟩)
    ∧ Frame.check ⟨(encodeFrame (.Simple "")).take 2, 0⟩ = .panic :=
  ⟨rfl, rfl, rfl⟩

/-- C3 counterexample: the claim "check Ok implies parse Ok" is false.  On the
buffer `"$-1\r\n"` (the wire encoding of `Null`), `check` returns `Ok` with the
cursor advanced to 5, yet `parse` from the same position returns a protocol
error, not `Ok` (under the broken `get_line` the negative-length line reads as
empty, which is not the literal `-1` that `parse` requires). -/
theorem check_complete_but_parse_errors_null :
    Frame.check ⟨[36, 45, 49, 13, 10], 0⟩ = .ok ((), ⟨[36, 45, 49, 13, 10], 5⟩)
    ∧ Frame.parse ⟨[36, 45, 49, 13, 10], 0⟩
        = .err (.other "protocol error; invalid frame format") :=
  ⟨rfl, rfl⟩

/-- C10: there is an input buffer on which `Frame::check` returns `Ok`
(Complete) but `Frame::parse` does not return `Ok`: on `"$-2\r\n"`, `check`'s
bulk-string branch sees the `-` and blindly skips four bytes (no validation of
the length payload), returning `Ok` with the cursor at 5, while `parse`
rejects the buffer with a protocol error.  Hence `check` succeeding does not
imply `parse` succeeds. -/
theorem check_complete_parse_fails_on_neg2 :
    Frame.check ⟨[36, 45, 50, 13, 10], 0⟩ = .ok ((), ⟨[36, 45, 50, 13, 10], 5⟩)
    ∧ Frame.parse ⟨[36, 45, 50, 13, 10], 0⟩
        = .err (.other "protocol error; invalid frame format") :=
  ⟨rfl, rfl⟩

/-! Helper lemmas about the stream map (shared). -/

/-- After a `StreamMap` insertion the key maps to the inserted value. -/
theorem lookupA_streamMapInsert {α : Type} (k : String) (v : α)
    (m : List (String × α)) : lookupA (streamMapInsert k v m) k = some v := by
  induction m with
  | nil => simp [streamMapInsert, lookupA]
  | cons hd tl ih =>
    obtain ⟨k0, v0⟩ := hd
    by_cases hk : k0 = k
    · subst hk
      simp [streamMapInsert, lookupA]
    · simp [streamMapInsert, lookupA, hk, ih]

/-- Size of a `StreamMap` after insertion: unchanged when the key was present,
one more when it was not. -/
theorem streamMapInsert_length {α : Type} (k : String) (v : α)
    (m : List (String × α)) :
    (streamMapInsert k v m).length
      = if (lookupA m k).isSome then m.length else m.length + 1 := by
  induction m with
  | nil => simp [streamMapInsert, lookupA]
  | cons hd tl ih =>
    obtain ⟨k0, v0⟩ := hd
    by_cases hk : k0 = k
    · simp [streamMapInsert, lookupA, hk]
    · simp only [streamMapInsert, if_neg hk, List.length_cons, lookupA, ih]
      split_ifs <;> omega

/-- C6: subscribing to a channel inserts that channel's receiver into the
subscription map and writes exactly one acknowledgment frame
`Array [Bulk "subscribe", Bulk channel, Int count]`, where the count is the
number of entries of the subscription map after the insertion (the map size
itself, plus one exactly when the channel was not already registered). -/
theorem subscribe_to_channel_ack_frame (chan : String)
    (sub : List (String × Receiver)) (db : Db) (dst : List Frame) :
    (subscribe_to_channel chan sub db dst).2
      = dst ++ [.Array [.Bulk (strBytes "subscribe"), .Bulk (strBytes chan),
          .Int (subscribe_to_channel chan sub db dst).1.length]]
    ∧ lookupA (subscribe_to_channel chan sub db dst).1 chan = some (db.subscribe chan)
    ∧ (subscribe_to_channel chan sub db dst).1.length
        = if (lookupA sub chan).isSome then sub.length else sub.length + 1 :=
  ⟨rfl, lookupA_streamMapInsert chan (db.subscribe chan) sub,
    streamMapInsert_length chan (db.subscribe chan) sub⟩

/-- C7: in the per-channel message stream of `subscribe_to_channel`, a
`Lagged` receive error neither terminates the stream nor yields anything —
consumption simply resumes with the rest of the trace; a message is yielded
and consumption continues; only a non-lag error (`closed`) ends the stream. -/
theorem subscription_stream_lag_policy (n : Nat) (m : List Nat)
    (rest : List RecvEvent) :
    messagesStream (.lagged n :: rest) = messagesStream rest
    ∧ messagesStream (.closed :: rest) = ([], true)
    ∧ messagesStream (.msg m :: rest)
        = (m :: (messagesStream rest).1, (messagesStream rest).2) := by
  refine ⟨rfl, rfl, ?_⟩
  rcases hr : messagesStream rest with ⟨ys, t⟩
  simp [messagesStream, hr]

/-- C8: the top-level dispatcher rejects every `Unsubscribe` command with an
error, writing no frame to the connection and leaving the database untouched. -/
theorem unsubscribe_apply_rejected (chs : List String) (db : Db)
    (dst : List Frame) :
    Command.apply (.Unsubscribe chs) db dst
      = (.error "`Unsubscribe` is unsupported in this context", db, dst) := rfl

/-- C9: applying a `Get` command writes exactly one reply frame — `Bulk value`
when the database holds a value under the key, `Null` otherwise — returns
`Ok`, and leaves the database unchanged. -/
theorem get_apply_reply (key : String) (db : Db) (dst : List Frame) :
    Command.apply (.Get key) db dst
      = (.ok (), db,
          dst ++ [match db.get key with
                  | some v => Frame.Bulk v
                  | none => Frame.Null]) := rfl

/-- C4 counterexample: a leftover element after an unrecognized command name
does NOT produce an error.  The frame `["FROBNICATE", "x"]` leaves `"x"`
unconsumed, yet `Command::from_frame` returns `Ok(Unknown("frobnicate"))` —
the catch-all arm returns early and never runs `parse.finish()`. -/
theorem unknown_with_leftover_parses_ok :
    Command.from_frame (.Array [.Bulk (strBytes "FROBNICATE"), .Bulk (strBytes "x")])
      = .ok (.Unknown "frobnicate") := rfl

/-- C4 (amended): for every Array frame whose first element reads as an
unrecognized command name, `Command::from_frame` returns `Ok(Unknown)` carrying
the lower-cased name, with all remaining elements IGNORED (the leftover-element
`finish` check is skipped by the early return); applying the resulting
`Unknown` command writes exactly one
`Error("err unknown command '<name>'")` frame and returns `Ok`, keeping the
connection alive. -/
theorem unknown_command_preserved_and_replies (first : Frame) (rest : List Frame)
    (s : String) (hs : frameToString first = .ok s)
    (hn : asciiLower s ∉ ["get", "publish", "set", "subscribe", "unsubscribe", "ping"]) :
    Command.from_frame (.Array (first :: rest)) = .ok (.Unknown (asciiLower s))
    ∧ ∀ dst : List Frame, Unknown.apply (asciiLower s) dst
        = (.ok (), dst ++ [.Error ("err unknown command '" ++ asciiLower s ++ "'")]) := by
  simp only [List.mem_cons, List.not_mem_nil, or_false, not_or] at hn
  obtain ⟨h1, h2, h3, h4, h5, h6⟩ := hn
  refine ⟨?_, fun dst => rfl⟩
  simp only [Command.from_frame, Parse.new, Parse.next_string, hs]
  rw [if_neg h1, if_neg h2, if_neg h3, if_neg h4, if_neg h5, if_neg h6]

/-- Witness for `unknown_command_preserved_and_replies` at the concrete frame
`["frobnicate", "x"]` and an empty connection. -/
theorem unknown_command_preserved_and_replies_witness :
    Command.from_frame (.Array [.Bulk (strBytes "frobnicate"), .Bulk (strBytes "x")])
      = .ok (.Unknown (asciiLower "frobnicate"))
    ∧ Unknown.apply (asciiLower "frobnicate") []
      = (.ok (), [.Error ("err unknown command '" ++ asciiLower "frobnicate" ++ "'")]) :=
  ⟨(unknown_command_preserved_and_replies (.Bulk (strBytes "frobnicate"))
      [.Bulk (strBytes "x")] "frobnicate" rfl (by decide)).1,
   (unknown_command_preserved_and_replies (.Bulk (strBytes "frobnicate"))
      [.Bulk (strBytes "x")] "frobnicate" rfl (by decide)).2 []⟩

/-- A GET frame with the key plus at least one extra element fails
`from_frame`: either the elements themselves fail to read, or `parse.finish()`
rejects the leftovers. -/
theorem from_frame_get_extra (a b : Frame) (rest : List Frame) :
    ∃ msg, Command.from_frame (.Array (.Bulk (strBytes "get") :: a :: b :: rest))
      = .error msg := by
  have hname : frameToString (.Bulk (strBytes "get")) = .ok "get" := rfl
  have hlow : asciiLower "get" = "get" := rfl
  cases hfa : frameToString a with
  | ok s =>
    refine ⟨"protocol error; expected end of frame, but there was more", ?_⟩
    simp [Command.from_frame, Parse.new, Parse.next_string, Get.parse_frames,
      Parse.finish, ParseError.message, hname, hlow, hfa]
  | error e =>
    refine ⟨e.message, ?_⟩
    simp [Command.from_frame, Parse.new, Parse.next_string, Get.parse_frames,
      Parse.finish, ParseError.message, hname, hlow, hfa]

/-- A PUBLISH frame with channel and message plus at least one extra element
fails `from_frame`. -/
theorem from_frame_publish_extra (a b c0 : Frame) (rest : List Frame) :
    ∃ msg, Command.from_frame (.Array (.Bulk (strBytes "publish") :: a :: b :: c0 :: rest))
      = .error msg := by
  have hname : frameToString (.Bulk (strBytes "publish")) = .ok "publish" := rfl
  have hlow : asciiLower "publish" = "publish" := rfl
  cases hfa : frameToString a with
  | ok s =>
    cases hfb : frameToBytes b with
    | ok bs =>
      refine ⟨"protocol error; expected end of frame, but there was more", ?_⟩
      simp [Command.from_frame, Parse.new, Parse.next_string, Parse.next_bytes,
        Publish.parse_frames, Parse.finish, ParseError.message, hname, hlow, hfa, hfb]
    | error e =>
      refine ⟨e.message, ?_⟩
      simp [Command.from_frame, Parse.new, Parse.next_string, Parse.next_bytes,
        Publish.parse_frames, Parse.finish, ParseError.message, hname, hlow, hfa, hfb]
  | error e =>
    refine ⟨e.message, ?_⟩
    simp [Command.from_frame, Parse.new, Parse.next_string, Parse.next_bytes,
      Publish.parse_frames, Parse.finish, ParseError.message, hname, hlow, hfa]

/-- C5: for the recognized fixed-arity commands, `Command::from_frame` fails
with a parse error when the Array frame carries elements beyond the fixed
argument count: a GET frame with two or more elements after the name (key plus
anything extra), and a PUBLISH frame with three or more elements after the
name (channel, message plus anything extra). -/
theorem known_command_extra_args_fail (args1 args2 : List Frame)
    (h1 : 2 ≤ args1.length) (h2 : 3 ≤ args2.length) :
    (∃ msg, Command.from_frame (.Array (.Bulk (strBytes "get") :: args1)) = .error msg)
    ∧ (∃ msg, Command.from_frame (.Array (.Bulk (strBytes "publish") :: args2)) = .error msg) := by
  constructor
  · rcases args1 with _ | ⟨a, _ | ⟨b, rest⟩⟩
    · exact absurd h1 (by simp)
    · exact absurd h1 (by simp)
    · exact from_frame_get_extra a b rest
  · rcases args2 with _ | ⟨a, _ | ⟨b, _ | ⟨c0, rest⟩⟩⟩
    · exact absurd h2 (by simp)
    · exact absurd h2 (by simp)
    · exact absurd h2 (by simp)
    · exact from_frame_publish_extra a b c0 rest

/-- Witness for `known_command_extra_args_fail`: in particular a GET frame
with a key plus one extra trailing element fails to parse. -/
theorem known_command_extra_args_fail_witness :
    (∃ msg, Command.from_frame (.Array [.Bulk (strBytes "get"), .Bulk (strBytes "k"),
        .Bulk (strBytes "extra")]) = .error msg)
    ∧ (∃ msg, Command.from_frame (.Array [.Bulk (strBytes "publish"), .Bulk (strBytes "ch"),
        .Bulk (strBytes "m"), .Bulk (strBytes "x")]) = .error msg) :=
  known_command_extra_args_fail
    [.Bulk (strBytes "k"), .Bulk (strBytes "extra")]
    [.Bulk (strBytes "ch"), .Bulk (strBytes "m"), .Bulk (strBytes "x")]
    (by simp) (by simp)
